import Mathlib

/-!
Shallow embedding of the seg-it repository (src/main_naming.py,
src/remote_update.py, src/config_docker.py).

The repository reconciles local JPG files against a SQL record store:
it extracts a 20-character serial from each filename (main_naming.py),
builds a serial-keyed mapping of local files (get_files_with_serials),
resolves canonical network paths through one batched query
(get_batch_file_paths_from_db), and relocates files with shutil.move
(move_files_to_remote_paths).

Modelling notes:
- Python str is modelled as Lean String restricted to its char list;
  all inputs in this development are ASCII.
- Python dicts are association lists with insertion-order semantics:
  assignment to an existing key replaces its value in place (pyInsert).
- pathlib stem and os.path.dirname (ntpath flavour, the script
  targets Windows shares) are modelled charwise below.
- The filesystem is a finite map from path strings to file contents;
  the primitive mutating calls the program makes (os.makedirs,
  shutil.move) are recorded in an operation trace.  The FsOp vocabulary
  also contains removeFile (os.remove) and copyFile (shutil.copy) so
  that their absence from traces is expressible; the program never
  issues them.
- Exceptions raised inside the per-file try block of
  move_files_to_remote_paths are modelled by a fault oracle keyed by
  the filename of the processed pair (each dict key is processed once).
- Database connectivity (connect_to_database) and query success are
  modelled as booleans of a DbEnv; the rows the query returns are the
  environment rows whose file_name passes the IN filter.
-/

namespace SegIt

/-- Replace every slash by a backslash: Python `s.replace(...)` with a
single-character pattern. -/
def normSep (s : String) : String := ⟨s.data.map (fun c => if c = '/' then '\\' else c)⟩

/-- Python slice `s[:n]`. -/
def strTake (s : String) (n : Nat) : String := ⟨s.data.take n⟩

/-- Python slice `s[n:]`. -/
def strDropN (s : String) (n : Nat) : String := ⟨s.data.drop n⟩

/-- Python `s.startswith(p)`. -/
def strStarts (s p : String) : Bool := p.data.isPrefixOf s.data

/-- Helper over the reversed character list: find the last dot of the
original name; it yields the stem only when the dot is neither the
first nor the last character of the name (pathlib suffix rule). -/
def stemRevAux : List Char → List Char → Option (List Char)
  | _, [] => none
  | acc, c :: cs =>
    if c = '.' then (if cs.isEmpty || acc.isEmpty then none else some cs)
    else stemRevAux (c :: acc) cs

/-- pathlib stem: the final component without its last suffix; names
like ".hidden" or "a." have no suffix and are returned whole. -/
def stem (s : String) : String :=
  match stemRevAux [] s.data.reverse with
  | none => s
  | some cs => ⟨cs.reverse⟩

/-- main_naming.py `truncate_first_20`: first 20 characters. -/
def truncate_first_20 (text : String) : String := strTake text 20

/-- Helper over the reversed character list for dirname. -/
def dirnameRevAux : List Char → Option (List Char)
  | [] => none
  | c :: cs => if c = '\\' || c = '/' then some cs else dirnameRevAux cs

/-- os.path.dirname (ntpath): everything before the last separator
(drive and root corner cases are irrelevant to the paths handled
here). -/
def dirname (p : String) : String :=
  match dirnameRevAux p.data.reverse with
  | none => ""
  | some cs => ⟨cs.reverse⟩

/-- config_docker.py source path marker "/EL/" (the config value whose
name ends in PREFIX, renamed here). -/
def DB_PATH_PFX : String := "/EL/"

/-- config_docker.py `NETWORK_SHARE_BASE`. -/
def NETWORK_SHARE_BASE : String := "\\\\192.168.2.2\\homes\\ryan\\"

/-- Python dict assignment `d[k] = v` on an insertion-ordered
association list: replace in place when the key exists, else append. -/
def pyInsert (d : List (String × α)) (k : String) (v : α) : List (String × α) :=
  if d.any (fun q => q.1 == k) then d.map (fun q => if q.1 == k then (k, v) else q)
  else d ++ [(k, v)]

/-- One row of the record store table, as selected by the query in
get_batch_file_paths_from_db (file_name, file_path, serial_nbr). -/
structure DbRow where
  file_name : String
  file_path : String
  serial_nbr : String
deriving DecidableEq

/-- External record-store environment: whether connect_to_database
succeeds, whether the single execute succeeds, and the table. -/
structure DbEnv where
  connectOk : Bool
  queryOk : Bool
  table : List DbRow
deriving DecidableEq

/-- The per-row path conversion inside get_batch_file_paths_from_db:
strip the configured source path marker and prepend NETWORK_SHARE_BASE
with separators normalised, else fall back to separator normalisation
only. -/
def convert_db_path (p : String) : String :=
  if strStarts p DB_PATH_PFX then
    NETWORK_SHARE_BASE ++ normSep (strDropN p DB_PATH_PFX.length)
  else normSep p

/-- remote_update.py `get_batch_file_paths_from_db`: returns the
filename to converted-path mapping together with the number of
executed record-store queries.  A failed connection returns the empty
mapping with zero queries; an empty input returns the empty mapping
with zero queries; a raising execute is caught and returns the empty
mapping after the one query. -/
def get_batch_file_paths_from_db (env : DbEnv) (pairs : List (String × String)) :
    List (String × String) × Nat :=
  if !env.connectOk then ([], 0)
  else if pairs.isEmpty then ([], 0)
  else if !env.queryOk then ([], 1)
  else
    let filenames := pairs.map Prod.fst
    let rows := env.table.filter (fun r => filenames.contains r.file_name)
    (rows.foldl (fun acc r => pyInsert acc r.file_name (convert_db_path r.file_path)) [], 1)

/-- A scanned local file: the source folder and the file name
(pathlib yields folder-joined paths; .name is the final component). -/
structure PyFile where
  dir : String
  name : String
deriving DecidableEq

/-- str(path) of a scanned file (Windows join). -/
def PyFile.fullPath (f : PyFile) : String := f.dir ++ "\\" ++ f.name

/-- remote_update.py `get_files_with_serials`: given the serial set
produced by main_naming.py and the glob listing of JPG names in the
folder, build the serial-keyed dict of local files.  Keyed by the
first 20 characters of the stem alone; assignment follows Python dict
semantics. -/
def get_files_with_serials (serials : List String) (folder : String)
    (jpgNames : List String) : List (String × PyFile) :=
  if serials.isEmpty then []
  else
    jpgNames.foldl
      (fun acc nm =>
        let serial := strTake (stem nm) 20
        if serials.contains serial then pyInsert acc serial ⟨folder, nm⟩ else acc)
      []

/-- Observable per-item events of the move loop, one per processed
pair: the MOVED print, the dry-run "Would move" print, the two WARNING
prints, and the caught-exception ERROR print with its message. -/
inductive Outcome where
  | moved (filename : String)
  | wouldMove (filename : String)
  | noLocalFile (filename : String)
  | localMissing (filename : String)
  | failed (filename : String) (msg : String)
deriving DecidableEq

/-- Primitive filesystem calls available to the program.  The move
loop only ever issues mkdirs (os.makedirs) and moveFile (shutil.move);
removeFile (os.remove) and copyFile (shutil.copy) are in the
vocabulary so their absence is a statement, not a modelling artefact. -/
inductive FsOp where
  | mkdirs (dir : String)
  | removeFile (path : String)
  | copyFile (src : String) (dst : String)
  | moveFile (src : String) (dst : String)
deriving DecidableEq

/-- Filesystem: finite map path to file content, as an assoc list. -/
abbrev FS := List (String × String)

def fsLookup (fs : FS) (p : String) : Option String :=
  (fs.find? (fun q => q.1 == p)).map Prod.snd

def fsErase (fs : FS) (p : String) : FS := fs.filter (fun q => q.1 != p)

def fsSet (fs : FS) (p c : String) : FS := pyInsert fs p c

/-- Net effect of shutil.move on an existing source: the destination
holds the source bytes (any previous destination file is replaced) and
the source entry is gone. -/
def fsMove (fs : FS) (src dst : String) : FS :=
  match fsLookup fs src with
  | some c => fsSet (fsErase fs src) dst c
  | none => fs

/-- Fault oracle value for one pair in the try block: succeed, raise
inside os.makedirs, or raise inside shutil.move. -/
inductive Fault where
  | ok
  | mkdirsRaise (msg : String)
  | moveRaise (msg : String)
deriving DecidableEq

/-- Mutable state threaded through the move loop. -/
structure MoveState where
  fs : FS
  trace : List FsOp
  outcomes : List Outcome
  movedCount : Nat
  wouldCount : Nat
deriving DecidableEq

def initState (fs0 : FS) : MoveState := ⟨fs0, [], [], 0, 0⟩

/-- One iteration of the move loop of move_files_to_remote_paths, for
one pair of the resolved mapping: find the first local file with the
matching name (WARNING and continue when absent), short-circuit in dry
run, re-check that the local file exists, then ensure the destination
directory and move the file, catching any raised exception as a
failed event. -/
def processOne (src : List (String × PyFile)) (dryRun : Bool)
    (faults : String → Fault) (st : MoveState) (item : String × String) : MoveState :=
  let filename := item.1
  let remotePath := item.2
  match src.find? (fun q => q.2.name == filename) with
  | none => { st with outcomes := st.outcomes ++ [.noLocalFile filename] }
  | some q =>
    let localFile := q.2
    if dryRun then
      { st with outcomes := st.outcomes ++ [.wouldMove filename],
                wouldCount := st.wouldCount + 1 }
    else if (fsLookup st.fs localFile.fullPath).isNone then
      { st with outcomes := st.outcomes ++ [.localMissing filename] }
    else
      match faults filename with
      | .mkdirsRaise m =>
          { st with outcomes := st.outcomes ++ [.failed filename m] }
      | .moveRaise m =>
          { st with trace := st.trace ++ [.mkdirs (dirname remotePath)],
                    outcomes := st.outcomes ++ [.failed filename m] }
      | .ok =>
          { st with
              fs := fsMove st.fs localFile.fullPath remotePath,
              trace := st.trace ++ [.mkdirs (dirname remotePath),
                                    .moveFile localFile.fullPath remotePath],
              outcomes := st.outcomes ++ [.moved filename],
              movedCount := st.movedCount + 1 }

/-- Result of move_files_to_remote_paths: the returned boolean plus
the final loop state (filesystem, op trace, per-item events, counts). -/
structure MoveResult where
  success : Bool
  st : MoveState
deriving DecidableEq

/-- remote_update.py `move_files_to_remote_paths`: early-return False
on an empty source dict, query the record store once for all files,
early-return False on an empty mapping, then process each resolved
pair; returns would_move_count > 0 in dry-run mode, moved_count > 0
otherwise. -/
def move_files_to_remote_paths (env : DbEnv) (faults : String → Fault)
    (fs0 : FS) (src : List (String × PyFile)) (dryRun : Bool) : MoveResult :=
  if src.isEmpty then ⟨false, initState fs0⟩
  else
    let pairs := src.map (fun q => (q.2.name, q.1))
    let dbPaths := (get_batch_file_paths_from_db env pairs).1
    if dbPaths.isEmpty then ⟨false, initState fs0⟩
    else
      let final := dbPaths.foldl (processOne src dryRun faults) (initState fs0)
      ⟨(if dryRun then final.wouldCount else final.movedCount) > 0, final⟩

/-- Companion definition written from the wording of the spec for the
path translation rule (section 4.3 step 4), to be compared with the
source-derived convert_db_path. -/
def specTranslateStoredPath (p : String) : String :=
  if strStarts p DB_PATH_PFX then
    NETWORK_SHARE_BASE ++ normSep (strDropN p DB_PATH_PFX.length)
  else normSep p

/-! Auxiliary lemmas about the association-list primitives and the
move loop. -/

theorem find?_map_set (k v : String) :
    ∀ (fs : List (String × String)), fs.any (fun q => q.1 == k) = true →
      ((fs.map (fun q => if q.1 == k then (k, v) else q)).find? (fun q => q.1 == k)) = some (k, v)
  | [], h => by simp at h
  | a :: l, h => by
      by_cases ha : (a.1 == k) = true
      · simp only [List.map_cons, if_pos ha]
        exact @List.find?_cons_of_pos _ (fun q => q.1 == k) (k, v) _ (by simp)
      · have h' : l.any (fun q => q.1 == k) = true := by
          simpa [List.any_cons, ha] using h
        simp only [List.map_cons, if_neg ha]
        rw [@List.find?_cons_of_neg _ (fun q => q.1 == k) a _ ha]
        exact find?_map_set k v l h'

theorem find?_append_single (k v : String) :
    ∀ (fs : List (String × String)), fs.any (fun q => q.1 == k) = false →
      ((fs ++ [(k, v)]).find? (fun q => q.1 == k)) = some (k, v)
  | [], _ => by
      simp only [List.nil_append]
      exact @List.find?_cons_of_pos _ (fun q => q.1 == k) (k, v) _ (by simp)
  | a :: l, h => by
      rw [List.any_cons] at h
      have hparts := Bool.or_eq_false_iff.mp h
      have ha : ¬ (a.1 == k) = true := by simp [hparts.1]
      simp only [List.cons_append]
      rw [@List.find?_cons_of_neg _ (fun q => q.1 == k) a _ ha]
      exact find?_append_single k v l hparts.2

theorem fsLookup_fsSet_self (fs : FS) (k v : String) :
    fsLookup (fsSet fs k v) k = some v := by
  unfold fsSet pyInsert fsLookup
  by_cases h : fs.any (fun q => q.1 == k) = true
  · rw [if_pos h, find?_map_set k v fs h]
    rfl
  · rw [if_neg h, find?_append_single k v fs (Bool.eq_false_iff.mpr h)]
    rfl

theorem find?_map_set_ne (k v k' : String) (hne : k' ≠ k) :
    ∀ (fs : List (String × String)),
      ((fs.map (fun q => if q.1 == k then (k, v) else q)).find? (fun q => q.1 == k'))
        = fs.find? (fun q => q.1 == k')
  | [] => by simp
  | a :: l => by
      by_cases ha : (a.1 == k) = true
      · have hak : a.1 = k := eq_of_beq ha
        have hkne : (k == k') = false := beq_eq_false_iff_ne.mpr (fun hh => hne hh.symm)
        have ha' : ¬ (a.1 == k') = true := by simp [hak, hkne]
        have hkk' : ¬ ((k, v).1 == k') = true := by simp [hkne]
        simp only [List.map_cons, if_pos ha]
        rw [@List.find?_cons_of_neg _ (fun q => q.1 == k') (k, v) _ hkk',
            @List.find?_cons_of_neg _ (fun q => q.1 == k') a _ ha']
        exact find?_map_set_ne k v k' hne l
      · by_cases ha2 : (a.1 == k') = true
        · simp only [List.map_cons, if_neg ha]
          rw [@List.find?_cons_of_pos _ (fun q => q.1 == k') a _ ha2,
              @List.find?_cons_of_pos _ (fun q => q.1 == k') a _ ha2]
        · simp only [List.map_cons, if_neg ha]
          rw [@List.find?_cons_of_neg _ (fun q => q.1 == k') a _ ha2,
              @List.find?_cons_of_neg _ (fun q => q.1 == k') a _ ha2]
          exact find?_map_set_ne k v k' hne l

theorem fsLookup_fsSet_ne (fs : FS) (k v k' : String) (hne : k' ≠ k) :
    fsLookup (fsSet fs k v) k' = fsLookup fs k' := by
  unfold fsSet pyInsert fsLookup
  by_cases h : fs.any (fun q => q.1 == k) = true
  · rw [if_pos h, find?_map_set_ne k v k' hne fs]
  · rw [if_neg h, List.find?_append]
    have hkne : (k == k') = false := beq_eq_false_iff_ne.mpr (fun hh => hne hh.symm)
    have hk : ([(k, v)].find? (fun q => q.1 == k')) = none := by
      rw [@List.find?_cons_of_neg _ (fun q => q.1 == k') (k, v) [] (by simp [hkne])]
      rfl
    rw [hk]
    cases fs.find? (fun q => q.1 == k') <;> rfl

theorem fsLookup_fsErase_self : ∀ (fs : FS) (p : String), fsLookup (fsErase fs p) p = none
  | [], _ => rfl
  | a :: l, p => by
      unfold fsErase fsLookup
      by_cases ha : (a.1 == p) = true
      · have hb : (a.1 != p) = false := by simp [bne, ha]
        simp only [List.filter_cons, hb]
        have h := fsLookup_fsErase_self l p
        unfold fsErase fsLookup at h
        simpa using h
      · have hb : (a.1 != p) = true := by simp [bne, Bool.eq_false_iff.mpr ha]
        simp only [List.filter_cons, hb, if_pos]
        rw [@List.find?_cons_of_neg _ (fun q => q.1 == p) a _ ha]
        have h := fsLookup_fsErase_self l p
        unfold fsErase fsLookup at h
        simpa using h

theorem processOne_outcomes_length (src : List (String × PyFile)) (dry : Bool)
    (faults : String → Fault) (st : MoveState) (item : String × String) :
    (processOne src dry faults st item).outcomes.length = st.outcomes.length + 1 := by
  unfold processOne
  cases hf : src.find? (fun q => q.2.name == item.1) with
  | none => simp [hf]
  | some q =>
    cases dry with
    | true => simp [hf]
    | false =>
      cases hN : fsLookup st.fs q.2.fullPath with
      | none => simp [hf, hN]
      | some c =>
        cases hflt : faults item.1 <;> simp [hf, hN, hflt]

theorem foldl_processOne_outcomes_length (src : List (String × PyFile)) (dry : Bool)
    (faults : String → Fault) :
    ∀ (l : List (String × String)) (st : MoveState),
      (l.foldl (processOne src dry faults) st).outcomes.length
        = st.outcomes.length + l.length
  | [], st => by simp
  | a :: t, st => by
      rw [List.foldl_cons, foldl_processOne_outcomes_length src dry faults t _,
          processOne_outcomes_length]
      simp [Nat.add_assoc, Nat.add_comm 1 t.length]

theorem processOne_dry_frame (src : List (String × PyFile)) (faults : String → Fault)
    (st : MoveState) (item : String × String) :
    (processOne src true faults st item).fs = st.fs ∧
    (processOne src true faults st item).trace = st.trace := by
  unfold processOne
  cases hf : src.find? (fun q => q.2.name == item.1) <;> simp [hf]

theorem foldl_processOne_dry_frame (src : List (String × PyFile)) (faults : String → Fault) :
    ∀ (l : List (String × String)) (st : MoveState),
      (l.foldl (processOne src true faults) st).fs = st.fs ∧
      (l.foldl (processOne src true faults) st).trace = st.trace
  | [], st => ⟨rfl, rfl⟩
  | a :: t, st => by
      rw [List.foldl_cons]
      have h1 := processOne_dry_frame src faults st a
      have h2 := foldl_processOne_dry_frame src faults t (processOne src true faults st a)
      exact ⟨h2.1.trans h1.1, h2.2.trans h1.2⟩

/-! Claim theorems. -/

/-- Claim C1, counterexample: two local files whose identifying keys
are equal but whose filenames differ are NOT both retained by the
mapping get_files_with_serials builds: the mapping has one entry and
the first-scanned file is absent from it (silently overwritten). -/
theorem C1_counterexample :
    (get_files_with_serials ["ABCDEFGHIJKLMNOPQRST"] "C:\\src"
        ["ABCDEFGHIJKLMNOPQRST111.jpg", "ABCDEFGHIJKLMNOPQRST222.jpg"]).length = 1 ∧
    ((get_files_with_serials ["ABCDEFGHIJKLMNOPQRST"] "C:\\src"
        ["ABCDEFGHIJKLMNOPQRST111.jpg", "ABCDEFGHIJKLMNOPQRST222.jpg"]).any
        (fun q => q.2.name == "ABCDEFGHIJKLMNOPQRST111.jpg")) = false := by decide

/-- Claim C1 (amended): when two scanned files share an identifying
key that is in the serial set, the scan mapping — keyed by the
identifying key alone, with Python dict assignment — retains only the
later-scanned file; the earlier one is silently overwritten and no
error of any kind is raised. -/
theorem C1_theorem (serials : List String) (folder n1 n2 s : String)
    (h1 : strTake (stem n1) 20 = s) (h2 : strTake (stem n2) 20 = s)
    (hs : serials.contains s = true) :
    get_files_with_serials serials folder [n1, n2] = [(s, ⟨folder, n2⟩)] := by
  have hne : serials.isEmpty = false := by
    cases serials with
    | nil => simp at hs
    | cons a l => rfl
  unfold get_files_with_serials
  simp only [hne, Bool.false_eq_true, if_false, List.foldl_cons, List.foldl_nil, h1, h2, hs,
    if_true, pyInsert, List.any_nil, List.any_cons, List.nil_append, beq_self_eq_true,
    Bool.or_false, List.map_cons, List.map_nil, if_pos]

/-- Claim C1, witness for the amended theorem at concrete inputs. -/
theorem C1_witness :
    get_files_with_serials ["AAAAAAAAAAAAAAAAAAAB"] "D:\\photos"
      ["AAAAAAAAAAAAAAAAAAAB01.jpg", "AAAAAAAAAAAAAAAAAAAB02.jpg"]
    = [("AAAAAAAAAAAAAAAAAAAB", ⟨"D:\\photos", "AAAAAAAAAAAAAAAAAAAB02.jpg"⟩)] :=
  C1_theorem ["AAAAAAAAAAAAAAAAAAAB"] "D:\\photos" "AAAAAAAAAAAAAAAAAAAB01.jpg"
    "AAAAAAAAAAAAAAAAAAAB02.jpg" "AAAAAAAAAAAAAAAAAAAB" (by decide) (by decide) (by decide)

/-- Claim C2, counterexample: a resolver call with failed connectivity
returns the same empty mapping as a successful lookup with zero
matches, and the whole run result is byte-identical in the two cases —
there is no distinguishable RecordStoreUnavailable error. -/
theorem C2_counterexample :
    (get_batch_file_paths_from_db ⟨false, true, [⟨"f.jpg", "/EL/a/f.jpg", "SER"⟩]⟩
        [("f.jpg", "SER")]).1 = [] ∧
    (get_batch_file_paths_from_db ⟨true, true, []⟩ [("f.jpg", "SER")]).1 = [] ∧
    move_files_to_remote_paths ⟨false, true, [⟨"f.jpg", "/EL/a/f.jpg", "SER"⟩]⟩ (fun _ => .ok)
        [("C:\\src\\f.jpg", "BYTES")] [("SER", ⟨"C:\\src", "f.jpg"⟩)] false
      = move_files_to_remote_paths ⟨true, true, []⟩ (fun _ => .ok)
        [("C:\\src\\f.jpg", "BYTES")] [("SER", ⟨"C:\\src", "f.jpg"⟩)] false := by decide

/-- Claim C2 (amended): connection failure, query failure and a
zero-match lookup all return the empty mapping from the resolver; the
caller cannot distinguish them. -/
theorem C2_theorem (qok : Bool) (table : List DbRow) (pairs : List (String × String)) :
    (get_batch_file_paths_from_db ⟨false, qok, table⟩ pairs).1 = [] ∧
    (get_batch_file_paths_from_db ⟨true, false, table⟩ pairs).1 = [] ∧
    (get_batch_file_paths_from_db ⟨true, true, []⟩ pairs).1 = [] := by
  refine ⟨rfl, ?_, ?_⟩ <;>
    · by_cases hp : pairs.isEmpty <;> simp [get_batch_file_paths_from_db, hp]

/-- Claim C3, counterexample: a local file whose filename has no
resolved destination receives NO per-item outcome at all — the run
with one unmatched local file produces an empty outcome sequence (and
success = false, without an error). -/
theorem C3_counterexample :
    (move_files_to_remote_paths ⟨true, true, []⟩ (fun _ => .ok)
        [("C:\\src\\AAAAAAAAAAAAAAAAAAAA1.jpg", "BYTES")]
        [("AAAAAAAAAAAAAAAAAAAA", ⟨"C:\\src", "AAAAAAAAAAAAAAAAAAAA1.jpg"⟩)] false).st.outcomes
      = [] ∧
    (move_files_to_remote_paths ⟨true, true, []⟩ (fun _ => .ok)
        [("C:\\src\\AAAAAAAAAAAAAAAAAAAA1.jpg", "BYTES")]
        [("AAAAAAAAAAAAAAAAAAAA", ⟨"C:\\src", "AAAAAAAAAAAAAAAAAAAA1.jpg"⟩)] false).success
      = false := by decide

/-- Claim C3 (amended): when the resolver mapping is empty the run
completes as a non-error result with success = false, an empty outcome
sequence, no filesystem mutation and no op trace; local files with no
resolved destination contribute no per-item outcome. -/
theorem C3_theorem (env : DbEnv) (faults : String → Fault) (fs0 : FS)
    (src : List (String × PyFile)) (dryRun : Bool)
    (h : (get_batch_file_paths_from_db env (src.map (fun q => (q.2.name, q.1)))).1 = []) :
    move_files_to_remote_paths env faults fs0 src dryRun = ⟨false, initState fs0⟩ := by
  unfold move_files_to_remote_paths
  by_cases hs : src.isEmpty <;> simp [hs, h]

/-- Claim C3, witness for the amended theorem at concrete inputs. -/
theorem C3_witness :
    move_files_to_remote_paths ⟨true, true, [⟨"other.jpg", "/EL/o/other.jpg", "X"⟩]⟩
      (fun _ => .ok) [] [("BBBBBBBBBBBBBBBBBBBB", ⟨"C:\\pics", "BBBBBBBBBBBBBBBBBBBB9.jpg"⟩)] true
    = ⟨false, initState []⟩ :=
  C3_theorem ⟨true, true, [⟨"other.jpg", "/EL/o/other.jpg", "X"⟩]⟩ (fun _ => .ok) []
    [("BBBBBBBBBBBBBBBBBBBB", ⟨"C:\\pics", "BBBBBBBBBBBBBBBBBBBB9.jpg"⟩)] true (by decide)

/-- Claim C4, counterexample: with a file already present at the
destination, a non-dry-run relocation issues NO removal of the
destination and NO byte copy: its filesystem op trace is exactly one
mkdirs followed by one move call (whose net effect replaces the
destination). -/
theorem C4_counterexample :
    fsLookup [("C:\\src\\f.jpg", "NEW"), ("\\\\192.168.2.2\\homes\\ryan\\a\\f.jpg", "OLD")]
        "\\\\192.168.2.2\\homes\\ryan\\a\\f.jpg" = some "OLD" ∧
    (move_files_to_remote_paths ⟨true, true, [⟨"f.jpg", "/EL/a/f.jpg", "SER"⟩]⟩ (fun _ => .ok)
        [("C:\\src\\f.jpg", "NEW"), ("\\\\192.168.2.2\\homes\\ryan\\a\\f.jpg", "OLD")]
        [("SER", ⟨"C:\\src", "f.jpg"⟩)] false).st.trace
      = [.mkdirs "\\\\192.168.2.2\\homes\\ryan\\a",
         .moveFile "C:\\src\\f.jpg" "\\\\192.168.2.2\\homes\\ryan\\a\\f.jpg"] ∧
    ((move_files_to_remote_paths ⟨true, true, [⟨"f.jpg", "/EL/a/f.jpg", "SER"⟩]⟩ (fun _ => .ok)
        [("C:\\src\\f.jpg", "NEW"), ("\\\\192.168.2.2\\homes\\ryan\\a\\f.jpg", "OLD")]
        [("SER", ⟨"C:\\src", "f.jpg"⟩)] false).st.trace.all
      (fun op => match op with
        | .removeFile _ => false
        | .copyFile _ _ => false
        | _ => true)) = true ∧
    fsLookup (move_files_to_remote_paths ⟨true, true, [⟨"f.jpg", "/EL/a/f.jpg", "SER"⟩]⟩
        (fun _ => .ok)
        [("C:\\src\\f.jpg", "NEW"), ("\\\\192.168.2.2\\homes\\ryan\\a\\f.jpg", "OLD")]
        [("SER", ⟨"C:\\src", "f.jpg"⟩)] false).st.fs
        "\\\\192.168.2.2\\homes\\ryan\\a\\f.jpg" = some "NEW" := by decide

/-- Claim C4 (amended): a successful non-dry-run relocation of a
matched pair issues exactly mkdirs followed by a single move call (no
destination removal, no separate byte copy), and afterwards the
destination content equals the source pre-relocation content — the
net-effect overwrite property of the claim holds. -/
theorem C4_theorem (src : List (String × PyFile)) (faults : String → Fault)
    (st : MoveState) (fn rp : String) (q : String × PyFile) (c : String)
    (hfind : src.find? (fun r => r.2.name == fn) = some q)
    (hflt : faults fn = .ok)
    (hex : fsLookup st.fs q.2.fullPath = some c) :
    (processOne src false faults st (fn, rp)).trace
      = st.trace ++ [.mkdirs (dirname rp), .moveFile q.2.fullPath rp] ∧
    fsLookup (processOne src false faults st (fn, rp)).fs rp = some c := by
  unfold processOne
  simp only [hfind, Bool.false_eq_true, if_false, hex, hflt]
  constructor
  · simp
  · simp only [Option.isNone_some]
    unfold fsMove
    rw [hex]
    simp [fsLookup_fsSet_self]

/-- Claim C4, witness for the amended theorem at concrete inputs. -/
theorem C4_witness :
    (processOne [("SER", ⟨"C:\\src", "g.jpg"⟩)] false (fun _ => .ok)
        (initState [("C:\\src\\g.jpg", "FRESH"),
                    ("\\\\192.168.2.2\\homes\\ryan\\b\\g.jpg", "STALE")])
        ("g.jpg", "\\\\192.168.2.2\\homes\\ryan\\b\\g.jpg")).trace
      = [.mkdirs "\\\\192.168.2.2\\homes\\ryan\\b",
         .moveFile "C:\\src\\g.jpg" "\\\\192.168.2.2\\homes\\ryan\\b\\g.jpg"] ∧
    fsLookup (processOne [("SER", ⟨"C:\\src", "g.jpg"⟩)] false (fun _ => .ok)
        (initState [("C:\\src\\g.jpg", "FRESH"),
                    ("\\\\192.168.2.2\\homes\\ryan\\b\\g.jpg", "STALE")])
        ("g.jpg", "\\\\192.168.2.2\\homes\\ryan\\b\\g.jpg")).fs
        "\\\\192.168.2.2\\homes\\ryan\\b\\g.jpg" = some "FRESH" := by
  have h := C4_theorem [("SER", ⟨"C:\\src", "g.jpg"⟩)] (fun _ => .ok)
    (initState [("C:\\src\\g.jpg", "FRESH"),
                ("\\\\192.168.2.2\\homes\\ryan\\b\\g.jpg", "STALE")])
    "g.jpg" "\\\\192.168.2.2\\homes\\ryan\\b\\g.jpg" ("SER", ⟨"C:\\src", "g.jpg"⟩) "FRESH"
    (by decide) rfl (by decide)
  exact ⟨h.1.trans (by decide), h.2⟩

/-- Claim C5, counterexample: a dry run over two local files of which
only one has a resolved destination produces one outcome, not two —
the outcome count equals the resolver mapping size, not the local file
count. -/
theorem C5_counterexample :
    (move_files_to_remote_paths
        ⟨true, true, [⟨"AAAAAAAAAAAAAAAAAAAA1.jpg", "/EL/x/AAAAAAAAAAAAAAAAAAAA1.jpg",
                       "AAAAAAAAAAAAAAAAAAAA"⟩]⟩
        (fun _ => .ok) []
        [("AAAAAAAAAAAAAAAAAAAA", ⟨"C:\\src", "AAAAAAAAAAAAAAAAAAAA1.jpg"⟩),
         ("BBBBBBBBBBBBBBBBBBBB", ⟨"C:\\src", "BBBBBBBBBBBBBBBBBBBB1.jpg"⟩)] true).st.outcomes.length
      = 1 ∧
    ([("AAAAAAAAAAAAAAAAAAAA", (⟨"C:\\src", "AAAAAAAAAAAAAAAAAAAA1.jpg"⟩ : PyFile)),
      ("BBBBBBBBBBBBBBBBBBBB", ⟨"C:\\src", "BBBBBBBBBBBBBBBBBBBB1.jpg"⟩)].length = 2) := by decide

/-- Claim C5 (amended): for every non-empty local file set, a dry run
performs zero filesystem mutations (empty op trace, filesystem
unchanged) and produces exactly one outcome per entry of the resolver
mapping — which can be fewer than the local file count. -/
theorem C5_theorem (env : DbEnv) (faults : String → Fault) (fs0 : FS)
    (src : List (String × PyFile)) (hs : src.isEmpty = false) :
    (move_files_to_remote_paths env faults fs0 src true).st.fs = fs0 ∧
    (move_files_to_remote_paths env faults fs0 src true).st.trace = [] ∧
    (move_files_to_remote_paths env faults fs0 src true).st.outcomes.length
      = (get_batch_file_paths_from_db env (src.map (fun q => (q.2.name, q.1)))).1.length := by
  unfold move_files_to_remote_paths
  by_cases hdb : ((get_batch_file_paths_from_db env (src.map (fun q => (q.2.name, q.1)))).1).isEmpty
  · have h0 : ((get_batch_file_paths_from_db env (src.map (fun q => (q.2.name, q.1)))).1) = [] :=
      List.isEmpty_iff.mp hdb
    simp [hs, hdb, initState, h0]
  · have hframe := foldl_processOne_dry_frame src faults
      ((get_batch_file_paths_from_db env (src.map (fun q => (q.2.name, q.1)))).1) (initState fs0)
    have hlen := foldl_processOne_outcomes_length src true faults
      ((get_batch_file_paths_from_db env (src.map (fun q => (q.2.name, q.1)))).1) (initState fs0)
    simp only [hs, Bool.false_eq_true, if_false, hdb]
    exact ⟨hframe.1, hframe.2, by simpa [initState] using hlen⟩

/-- Claim C5, witness for the amended theorem at concrete inputs. -/
theorem C5_witness :
    (move_files_to_remote_paths ⟨true, true, [⟨"h.jpg", "/EL/c/h.jpg", "SERIALH"⟩]⟩
        (fun _ => .ok) [("C:\\loc\\h.jpg", "HB")]
        [("SERIALH", ⟨"C:\\loc", "h.jpg"⟩)] true).st.fs = [("C:\\loc\\h.jpg", "HB")] ∧
    (move_files_to_remote_paths ⟨true, true, [⟨"h.jpg", "/EL/c/h.jpg", "SERIALH"⟩]⟩
        (fun _ => .ok) [("C:\\loc\\h.jpg", "HB")]
        [("SERIALH", ⟨"C:\\loc", "h.jpg"⟩)] true).st.trace = [] ∧
    (move_files_to_remote_paths ⟨true, true, [⟨"h.jpg", "/EL/c/h.jpg", "SERIALH"⟩]⟩
        (fun _ => .ok) [("C:\\loc\\h.jpg", "HB")]
        [("SERIALH", ⟨"C:\\loc", "h.jpg"⟩)] true).st.outcomes.length
      = (get_batch_file_paths_from_db ⟨true, true, [⟨"h.jpg", "/EL/c/h.jpg", "SERIALH"⟩]⟩
          ([("SERIALH", (⟨"C:\\loc", "h.jpg"⟩ : PyFile))].map (fun q => (q.2.name, q.1)))).1.length :=
  C5_theorem ⟨true, true, [⟨"h.jpg", "/EL/c/h.jpg", "SERIALH"⟩]⟩ (fun _ => .ok)
    [("C:\\loc\\h.jpg", "HB")] [("SERIALH", ⟨"C:\\loc", "h.jpg"⟩)] rfl

/-- Claim C6, counterexample: a row whose stored key disagrees with
the requested key for its filename is resolved exactly like a matching
row — the resolver output is identical and the mismatched row is still
mapped; no anomaly of any kind is reported. -/
theorem C6_counterexample :
    get_batch_file_paths_from_db ⟨true, true, [⟨"f.jpg", "/EL/a/f.jpg", "GOODSERIAL"⟩]⟩
        [("f.jpg", "GOODSERIAL")]
      = get_batch_file_paths_from_db ⟨true, true, [⟨"f.jpg", "/EL/a/f.jpg", "WRONGSERIAL"⟩]⟩
        [("f.jpg", "GOODSERIAL")] ∧
    (get_batch_file_paths_from_db ⟨true, true, [⟨"f.jpg", "/EL/a/f.jpg", "WRONGSERIAL"⟩]⟩
        [("f.jpg", "GOODSERIAL")]).1
      = [("f.jpg", "\\\\192.168.2.2\\homes\\ryan\\a\\f.jpg")] := by decide

/-- Claim C6 (amended): the resolver reads the stored-key column but
never checks it: its entire result is invariant under arbitrary
rewriting of every stored key in the table, so no key-consistency
verification happens and no match anomaly is reported. -/
theorem C6_theorem (cOk qOk : Bool) (table : List DbRow)
    (pairs : List (String × String)) (g : String → String) :
    get_batch_file_paths_from_db
        ⟨cOk, qOk, table.map (fun r => ⟨r.file_name, r.file_path, g r.serial_nbr⟩)⟩ pairs
      = get_batch_file_paths_from_db ⟨cOk, qOk, table⟩ pairs := by
  unfold get_batch_file_paths_from_db
  cases cOk with
  | false => rfl
  | true =>
    by_cases hp : pairs.isEmpty
    · simp [hp]
    · cases qOk with
      | false => simp [hp]
      | true =>
        simp only [hp, Bool.not_true, Bool.false_eq_true, if_false, Bool.not_false, if_true]
        rw [List.filter_map, List.foldl_map]
        rfl

/-- Claim C7: the path resolver returns the empty mapping with zero
executed queries on an empty batch (not an error), and, when
connectivity is available, executes exactly one record-store query for
any non-empty batch. -/
theorem C7_theorem (env : DbEnv) (pairs : List (String × String)) :
    (pairs.isEmpty = true → get_batch_file_paths_from_db env pairs = ([], 0)) ∧
    (env.connectOk = true → pairs.isEmpty = false →
      (get_batch_file_paths_from_db env pairs).2 = 1) := by
  obtain ⟨c, q, t⟩ := env
  constructor
  · intro hp
    cases c <;> simp [get_batch_file_paths_from_db, hp]
  · intro hc hp
    cases c with
    | false => exact absurd hc (by simp)
    | true => cases q <;> simp [get_batch_file_paths_from_db, hp]

/-- Claim C7, witness at concrete inputs: empty batch gives zero
queries and an empty mapping; a one-pair batch gives one query. -/
theorem C7_witness :
    get_batch_file_paths_from_db ⟨true, true, []⟩ [] = ([], 0) ∧
    (get_batch_file_paths_from_db ⟨true, true, []⟩ [("a.jpg", "SERIALA")]).2 = 1 :=
  ⟨(C7_theorem ⟨true, true, []⟩ []).1 rfl,
   (C7_theorem ⟨true, true, []⟩ [("a.jpg", "SERIALA")]).2 rfl rfl⟩

/-- Claim C8: key extraction takes the first 20 characters of the
extension-stripped base name; stored-path translation strips the
configured source marker and appends the separator-normalised
remainder to the destination root (else normalises separators only,
per the spec-worded companion definition); and the concrete scenario
of the claim resolves to the expected canonical path, with the full
non-dry-run run yielding the moved outcome. -/
theorem C8_theorem :
    truncate_first_20 (stem "ABCDEFGHIJKLMNOPQRST12345.jpg") = "ABCDEFGHIJKLMNOPQRST" ∧
    convert_db_path "/EL/2024/unit1/ABCDEFGHIJKLMNOPQRST12345.jpg"
      = NETWORK_SHARE_BASE ++ "2024\\unit1\\ABCDEFGHIJKLMNOPQRST12345.jpg" ∧
    (∀ p : String, convert_db_path p = specTranslateStoredPath p) ∧
    (move_files_to_remote_paths
        ⟨true, true, [⟨"ABCDEFGHIJKLMNOPQRST12345.jpg",
                       "/EL/2024/unit1/ABCDEFGHIJKLMNOPQRST12345.jpg",
                       "ABCDEFGHIJKLMNOPQRST"⟩]⟩
        (fun _ => .ok)
        [("C:\\src\\ABCDEFGHIJKLMNOPQRST12345.jpg", "JPGBYTES")]
        (get_files_with_serials ["ABCDEFGHIJKLMNOPQRST"] "C:\\src"
          ["ABCDEFGHIJKLMNOPQRST12345.jpg"]) false).st.outcomes
      = [.moved "ABCDEFGHIJKLMNOPQRST12345.jpg"] ∧
    (move_files_to_remote_paths
        ⟨true, true, [⟨"ABCDEFGHIJKLMNOPQRST12345.jpg",
                       "/EL/2024/unit1/ABCDEFGHIJKLMNOPQRST12345.jpg",
                       "ABCDEFGHIJKLMNOPQRST"⟩]⟩
        (fun _ => .ok)
        [("C:\\src\\ABCDEFGHIJKLMNOPQRST12345.jpg", "JPGBYTES")]
        (get_files_with_serials ["ABCDEFGHIJKLMNOPQRST"] "C:\\src"
          ["ABCDEFGHIJKLMNOPQRST12345.jpg"]) false).success = true ∧
    fsLookup (move_files_to_remote_paths
        ⟨true, true, [⟨"ABCDEFGHIJKLMNOPQRST12345.jpg",
                       "/EL/2024/unit1/ABCDEFGHIJKLMNOPQRST12345.jpg",
                       "ABCDEFGHIJKLMNOPQRST"⟩]⟩
        (fun _ => .ok)
        [("C:\\src\\ABCDEFGHIJKLMNOPQRST12345.jpg", "JPGBYTES")]
        (get_files_with_serials ["ABCDEFGHIJKLMNOPQRST"] "C:\\src"
          ["ABCDEFGHIJKLMNOPQRST12345.jpg"]) false).st.fs
        "\\\\192.168.2.2\\homes\\ryan\\2024\\unit1\\ABCDEFGHIJKLMNOPQRST12345.jpg"
      = some "JPGBYTES" :=
  ⟨by decide, by decide, fun p => rfl, by decide, by decide, by decide⟩

/-- Claim C9: in a non-dry run over a non-empty local file set the
engine always returns one outcome per resolved pair (the full
sequence, no early abort), and a fault raised inside the per-pair try
block — during directory creation or the move — yields the failed
outcome carrying the underlying message while leaving the loop to
continue with the next pair. -/
theorem C9_theorem (env : DbEnv) (faults : String → Fault) (fs0 : FS)
    (src : List (String × PyFile)) (hs : src.isEmpty = false) :
    (move_files_to_remote_paths env faults fs0 src false).st.outcomes.length
      = (get_batch_file_paths_from_db env (src.map (fun q => (q.2.name, q.1)))).1.length ∧
    (∀ (st : MoveState) (fn rp m : String) (q : String × PyFile),
      src.find? (fun r => r.2.name == fn) = some q →
      fsLookup st.fs q.2.fullPath ≠ none →
      (faults fn = .mkdirsRaise m ∨ faults fn = .moveRaise m) →
      (processOne src false faults st (fn, rp)).outcomes = st.outcomes ++ [.failed fn m]) := by
  constructor
  · unfold move_files_to_remote_paths
    by_cases hdb : ((get_batch_file_paths_from_db env (src.map (fun q => (q.2.name, q.1)))).1).isEmpty
    · have h0 := List.isEmpty_iff.mp hdb
      simp [hs, hdb, initState, h0]
    · have hlen := foldl_processOne_outcomes_length src false faults
        ((get_batch_file_paths_from_db env (src.map (fun q => (q.2.name, q.1)))).1) (initState fs0)
      simp only [hs, Bool.false_eq_true, if_false, hdb]
      simpa [initState] using hlen
  · intro st fn rp m q hfind hex hflt
    obtain ⟨c, hc⟩ := Option.ne_none_iff_exists'.mp hex
    unfold processOne
    rcases hflt with hflt | hflt <;> simp [hfind, hc, hflt]

/-- Claim C9, witness at concrete inputs: a mkdirs fault produces one
failed outcome with its message, and the run returns the full
one-entry outcome sequence. -/
theorem C9_witness :
    (move_files_to_remote_paths ⟨true, true, [⟨"k.jpg", "/EL/d/k.jpg", "SERIALK"⟩]⟩
        (fun _ => .mkdirsRaise "disk full") [("C:\\loc\\k.jpg", "KB")]
        [("SERIALK", ⟨"C:\\loc", "k.jpg"⟩)] false).st.outcomes.length
      = (get_batch_file_paths_from_db ⟨true, true, [⟨"k.jpg", "/EL/d/k.jpg", "SERIALK"⟩]⟩
          ([("SERIALK", (⟨"C:\\loc", "k.jpg"⟩ : PyFile))].map (fun q => (q.2.name, q.1)))).1.length ∧
    (processOne [("SERIALK", ⟨"C:\\loc", "k.jpg"⟩)] false (fun _ => .mkdirsRaise "disk full")
        (initState [("C:\\loc\\k.jpg", "KB")]) ("k.jpg", "T")).outcomes
      = (initState [("C:\\loc\\k.jpg", "KB")]).outcomes ++ [.failed "k.jpg" "disk full"] := by
  have h := C9_theorem ⟨true, true, [⟨"k.jpg", "/EL/d/k.jpg", "SERIALK"⟩]⟩
    (fun _ => .mkdirsRaise "disk full") [("C:\\loc\\k.jpg", "KB")]
    [("SERIALK", ⟨"C:\\loc", "k.jpg"⟩)] rfl
  exact ⟨h.1, h.2 (initState [("C:\\loc\\k.jpg", "KB")]) "k.jpg" "T" "disk full"
    ("SERIALK", ⟨"C:\\loc", "k.jpg"⟩) (by decide) (by decide) (Or.inl rfl)⟩

/-- Claim C10: a successful non-dry-run relocation (reported moved) of
a pair whose source and destination paths differ removes the source
entry from the filesystem — shutil.move has move semantics, with no
mode preserving the source. -/
theorem C10_theorem (src : List (String × PyFile)) (faults : String → Fault)
    (st : MoveState) (fn rp : String) (q : String × PyFile)
    (hfind : src.find? (fun r => r.2.name == fn) = some q)
    (hflt : faults fn = .ok)
    (hex : fsLookup st.fs q.2.fullPath ≠ none)
    (hne : q.2.fullPath ≠ rp) :
    (processOne src false faults st (fn, rp)).outcomes = st.outcomes ++ [.moved fn] ∧
    fsLookup (processOne src false faults st (fn, rp)).fs q.2.fullPath = none := by
  obtain ⟨c, hc⟩ := Option.ne_none_iff_exists'.mp hex
  unfold processOne
  simp only [hfind, Bool.false_eq_true, if_false, hc, hflt, Option.isNone_some]
  constructor
  · simp
  · unfold fsMove
    rw [hc]
    rw [fsLookup_fsSet_ne (fsErase st.fs q.2.fullPath) rp c q.2.fullPath hne]
    exact fsLookup_fsErase_self st.fs q.2.fullPath

/-- Claim C10, witness at concrete inputs: after a successful move the
source path no longer resolves. -/
theorem C10_witness :
    (processOne [("SERIALM", ⟨"C:\\loc", "m.jpg"⟩)] false (fun _ => .ok)
        (initState [("C:\\loc\\m.jpg", "MB")])
        ("m.jpg", "\\\\192.168.2.2\\homes\\ryan\\e\\m.jpg")).outcomes
      = (initState [("C:\\loc\\m.jpg", "MB")]).outcomes ++ [.moved "m.jpg"] ∧
    fsLookup (processOne [("SERIALM", ⟨"C:\\loc", "m.jpg"⟩)] false (fun _ => .ok)
        (initState [("C:\\loc\\m.jpg", "MB")])
        ("m.jpg", "\\\\192.168.2.2\\homes\\ryan\\e\\m.jpg")).fs
        (PyFile.fullPath ⟨"C:\\loc", "m.jpg"⟩) = none :=
  C10_theorem [("SERIALM", ⟨"C:\\loc", "m.jpg"⟩)] (fun _ => .ok)
    (initState [("C:\\loc\\m.jpg", "MB")]) "m.jpg" "\\\\192.168.2.2\\homes\\ryan\\e\\m.jpg"
    ("SERIALM", ⟨"C:\\loc", "m.jpg"⟩) (by decide) rfl (by decide) (by decide)

end SegIt
